import Mathlib

/-!
Shallow embedding of `src/api.js` of the repository: an Express-style
request-handling layer for a two-resource (products, orders) CRUD service.
Each handler extracts parameters from a request, delegates to a data-access
collaborator (`Products`, `Orders`), and hands the result to the JSON
response path.  Handlers are modelled as pure functions from a request and
the collaborator's behaviour to an effect trace (collaborator calls,
`res.json`, `next()`, `next(e)`), with promise rejection made explicit via
`Except` on the collaborator and a `rejected` field on the handler result.
-/

/-- JavaScript numbers as they arise in this layer: the result of `Number(x)`
on integer text is an integer, and non-numeric text yields `NaN`. -/
inductive JsNum where
  | int (n : Int)
  | nan
deriving DecidableEq, Repr

/-- JavaScript runtime values flowing through the handlers: query fields,
request bodies and collaborator results are opaque structured values. -/
inductive JsVal where
  | undefined
  | null
  | bool (b : Bool)
  | num (n : JsNum)
  | str (s : String)
  | arr (elems : List JsVal)
  | obj (fields : List (String × JsVal))

/-- Truthiness of a JavaScript value, as tested by `if (!product)` in
`getProduct` / `getOrder` (src/api.js lines 41 and 104). -/
def JsVal.truthy : JsVal → Bool
  | .undefined => false
  | .null => false
  | .bool b => b
  | .num (.int n) => n != 0
  | .num .nan => false
  | .str s => !s.isEmpty
  | .arr _ => true
  | .obj _ => true

/-- Numeric value of a nonempty digit string. -/
def digitsToNat (cs : List Char) : Nat :=
  cs.foldl (fun acc c => 10 * acc + (c.toNat - 48)) 0

/-- Predicate for the optional-sign decimal integer wire format of §6
("offset (integer text)"): the strings on which `Number` yields an
integer other than via the empty-string rule. -/
def isIntText (s : String) : Bool :=
  match s.data with
  | [] => false
  | '-' :: rest => !rest.isEmpty && rest.all Char.isDigit
  | cs => cs.all Char.isDigit

/-- JavaScript `Number` applied to a string, restricted to the integer-text
wire format of §6: the empty string coerces to `0`, optional-sign decimal
digit strings to their integer value, and anything else to `NaN`. -/
def jsNumber (s : String) : JsNum :=
  match s.data with
  | [] => .int 0
  | '-' :: rest =>
      if !rest.isEmpty && rest.all Char.isDigit then .int (-(digitsToNat rest : Int))
      else .nan
  | cs =>
      if cs.all Char.isDigit then .int (digitsToNat cs) else .nan

/-- Value bound by the destructuring `const { offset = 0, limit = 25, ... }`:
either the query string when the property is present, or the numeric
default when it is `undefined`. -/
inductive StrOrNum where
  | s (v : String)
  | n (v : Int)
deriving DecidableEq, Repr

/-- Destructuring with default (`const { offset = 0 } = req.query`): the
default applies exactly when the property is `undefined` (absent). -/
def destructureDefault (q : Option String) (d : Int) : StrOrNum :=
  match q with
  | none => .n d
  | some v => .s v

/-- JavaScript `Number` applied to the destructured value: a string goes
through `jsNumber`, a numeric default is already a number. -/
def numberOf : StrOrNum → JsNum
  | .s v => jsNumber v
  | .n v => .int v

/-- A query property as it appears as an object-literal value: the string
when present, `undefined` when absent (shorthand `tag`, `productId`,
`status` in the options objects). -/
def optUndef : Option String → JsVal
  | none => .undefined
  | some s => .str s

/-- The query component of a request (`req.query`): each recognised
parameter is a string when supplied and absent otherwise. -/
structure Query where
  offset : Option String := none
  limit : Option String := none
  tag : Option String := none
  productId : Option String := none
  status : Option String := none

/-- Path parameters (`req.params`). -/
structure Params where
  id : String

/-- An inbound HTTP request as consumed by the handlers. -/
structure Req where
  query : Query
  params : Params
  body : JsVal

/-- Options object built by `listProducts` (src/api.js lines 23-27):
`{ offset: Number(offset), limit: Number(limit), tag }`. -/
def listProductsOptions (q : Query) : JsVal :=
  .obj [("offset", .num (numberOf (destructureDefault q.offset 0))),
        ("limit", .num (numberOf (destructureDefault q.limit 25))),
        ("tag", optUndef q.tag)]

/-- Options object built by `listOrders` (src/api.js lines 117-122):
`{ offset: Number(offset), limit: Number(limit), productId, status }`. -/
def listOrdersOptions (q : Query) : JsVal :=
  .obj [("offset", .num (numberOf (destructureDefault q.offset 0))),
        ("limit", .num (numberOf (destructureDefault q.limit 25))),
        ("productId", optUndef q.productId),
        ("status", optUndef q.status)]

/-- Property access `o[k]` on a JavaScript object: the stored value when the
key is present (even if that value is `undefined`), `undefined` otherwise. -/
def jsGet (o : JsVal) (k : String) : JsVal :=
  match o with
  | .obj fs =>
      match fs.find? (fun p => p.fst == k) with
      | some p => p.snd
      | none => .undefined
  | _ => .undefined

/-- Key-presence test `k in o` on a JavaScript object, distinguishing a key
stored with value `undefined` from an absent key. -/
def hasKey (o : JsVal) (k : String) : Bool :=
  match o with
  | .obj fs => fs.any (fun p => p.fst == k)
  | _ => false

/-- Observable effects of one handler invocation: the collaborator calls it
makes, the value it hands to the JSON response path (`res.json`), a call of
the deferred continuation `next()` with no argument, a call `next(e)` with
an error, and the static-file response of the root handler. -/
inductive Eff (ε : Type) where
  | sendFile (p : String)
  | callList (opts : JsVal)
  | callGet (id : String)
  | callCreate (body : JsVal)
  | callEdit (id : String) (change : JsVal)
  | callDestroy (id : String)
  | resJson (v : JsVal)
  | next
  | nextErr (e : ε)

/-- Effect classifier: a `next(e)` call from the error-forwarding adapter. -/
def Eff.isNextErr {ε : Type} : Eff ε → Bool
  | .nextErr _ => true
  | _ => false

/-- Effect classifier: a value handed to the JSON response path. -/
def Eff.isResJson {ε : Type} : Eff ε → Bool
  | .resJson _ => true
  | _ => false

/-- Effect classifier: a `next()` call with no argument. -/
def Eff.isNext {ε : Type} : Eff ε → Bool
  | .next => true
  | _ => false

/-- Result of running an unwrapped (raw) async handler: the trace of effects
it emitted, and `some e` when the underlying promise rejected with reason
`e` after that trace (awaiting a rejected collaborator call aborts the
handler body at the `await`). -/
structure RawResult (ε : Type) where
  trace : List (Eff ε)
  rejected : Option ε

/-- Behaviour of a data-access collaborator (`Products` or `Orders`, §6):
each operation either resolves to a value or rejects with a reason. -/
structure Collab (ε : Type) where
  list : JsVal → Except ε JsVal
  get : String → Except ε JsVal
  create : JsVal → Except ε JsVal
  edit : String → JsVal → Except ε JsVal
  destroy : String → Except ε JsVal

/-- One `await` of a collaborator call inside an async handler: the call
effect is always emitted; on resolution the continuation `k` supplies the
rest of the trace, on rejection the handler body stops and the promise
rejects with the same reason. -/
def awaitStep {ε : Type} (call : Eff ε) (result : Except ε JsVal)
    (k : JsVal → List (Eff ε)) : RawResult ε :=
  match result with
  | .error e => ⟨[call], some e⟩
  | .ok v => ⟨call :: k v, none⟩

/-- Root handler (src/api.js lines 12-14): serves the static index page via
`res.sendFile(path.join(__dirname, '/index.html'))`; `__dirname` is
abstracted away as the module root. -/
def handleRoot {ε : Type} (_req : Req) : RawResult ε :=
  ⟨[.sendFile "/index.html"], none⟩

/-- List products (src/api.js lines 22-29): destructures
`offset = 0, limit = 25, tag` from the query, awaits
`Products.list({offset: Number(offset), limit: Number(limit), tag})`, and
responds with the result as JSON. -/
def listProducts {ε : Type} (Products : Collab ε) (req : Req) : RawResult ε :=
  let opts := listProductsOptions req.query
  awaitStep (.callList opts) (Products.list opts) (fun v => [.resJson v])

/-- Get product (src/api.js lines 38-45): awaits `Products.get(id)`; a falsy
result defers to `next()`, otherwise the product is the JSON response. -/
def getProduct {ε : Type} (Products : Collab ε) (req : Req) : RawResult ε :=
  awaitStep (.callGet req.params.id) (Products.get req.params.id)
    (fun product =>
      if product.truthy = false then [.next] else [.resJson product])

/-- Create product (src/api.js lines 53-56): awaits
`Products.create(req.body)` and responds with the created product. -/
def createProduct {ε : Type} (Products : Collab ε) (req : Req) : RawResult ε :=
  awaitStep (.callCreate req.body) (Products.create req.body)
    (fun product => [.resJson product])

/-- Edit product (src/api.js lines 65-69): awaits
`Products.edit(req.params.id, req.body)` and responds with the result. -/
def editProduct {ε : Type} (Products : Collab ε) (req : Req) : RawResult ε :=
  awaitStep (.callEdit req.params.id req.body)
    (Products.edit req.params.id req.body) (fun product => [.resJson product])

/-- Delete product (src/api.js lines 78-81): awaits
`Products.destroy(req.params.id)` and responds with the result. -/
def deleteProduct {ε : Type} (Products : Collab ε) (req : Req) : RawResult ε :=
  awaitStep (.callDestroy req.params.id) (Products.destroy req.params.id)
    (fun response => [.resJson response])

/-- Create order (src/api.js lines 89-92): awaits `Orders.create(req.body)`
and responds with the created order. -/
def createOrder {ε : Type} (Orders : Collab ε) (req : Req) : RawResult ε :=
  awaitStep (.callCreate req.body) (Orders.create req.body)
    (fun order => [.resJson order])

/-- Get order (src/api.js lines 101-108): awaits `Orders.get(id)`; a falsy
result defers to `next()`, otherwise the order is the JSON response. -/
def getOrder {ε : Type} (Orders : Collab ε) (req : Req) : RawResult ε :=
  awaitStep (.callGet req.params.id) (Orders.get req.params.id)
    (fun order =>
      if order.truthy = false then [.next] else [.resJson order])

/-- List orders (src/api.js lines 116-125): destructures
`offset = 0, limit = 25, productId, status` from the query, awaits
`Orders.list({offset: Number(offset), limit: Number(limit), productId,
status})`, and responds with the result as JSON. -/
def listOrders {ε : Type} (Orders : Collab ε) (req : Req) : RawResult ε :=
  let opts := listOrdersOptions req.query
  awaitStep (.callList opts) (Orders.list opts) (fun v => [.resJson v])

/-- Edit order (src/api.js lines 133-137): awaits
`Orders.edit(req.params.id, req.body)` and responds with the result. -/
def editOrder {ε : Type} (Orders : Collab ε) (req : Req) : RawResult ε :=
  awaitStep (.callEdit req.params.id req.body)
    (Orders.edit req.params.id req.body) (fun order => [.resJson order])

/-- Delete order (src/api.js lines 145-148): awaits
`Orders.destroy(req.params.id)` and responds with the result. -/
def deleteOrder {ε : Type} (Orders : Collab ε) (req : Req) : RawResult ε :=
  awaitStep (.callDestroy req.params.id) (Orders.destroy req.params.id)
    (fun response => [.resJson response])

/-- Names of the handlers exported by src/api.js lines 151-163. -/
inductive HandlerName where
  | handleRoot
  | listProducts
  | getProduct
  | createProduct
  | editProduct
  | deleteProduct
  | createOrder
  | listOrders
  | editOrder
  | deleteOrder
  | getOrder
deriving DecidableEq, Repr

/-- The unwrapped handler bound to each exported name, given the behaviour
of the `Products` and `Orders` collaborators. -/
def rawHandler {ε : Type} (Products Orders : Collab ε) :
    HandlerName → Req → RawResult ε
  | .handleRoot => handleRoot
  | .listProducts => listProducts Products
  | .getProduct => getProduct Products
  | .createProduct => createProduct Products
  | .editProduct => editProduct Products
  | .deleteProduct => deleteProduct Products
  | .createOrder => createOrder Orders
  | .listOrders => listOrders Orders
  | .editOrder => editOrder Orders
  | .deleteOrder => deleteOrder Orders
  | .getOrder => getOrder Orders

/-- Modelled from the spec: `lib/auto-catch` is required by src/api.js
(line 4) but its source is not under src/.  Per §4.2, the error-forwarding
adapter leaves each handler's invocation signature and success behaviour
unchanged, and on rejection with reason `e` captures the reason and invokes
the deferred-error continuation `next(e)` exactly once, emitting no response
of its own.  Here that is the observable trace of one wrapped invocation. -/
def autoCatchRun {ε : Type} (r : RawResult ε) : List (Eff ε) :=
  match r.rejected with
  | none => r.trace
  | some e => r.trace ++ [.nextErr e]

/-- Modelled from the spec: the adapter applied to one handler function, as
`autoCatch` is applied to every entry of the exported handler map. -/
def autoCatch {ε : Type} (h : Req → RawResult ε) : Req → List (Eff ε) :=
  fun req => autoCatchRun (h req)

/-- The module export (src/api.js lines 151-163): every handler wrapped with
`autoCatch`; the trace observable from one invocation of a wrapped
handler. -/
def moduleExports {ε : Type} (Products Orders : Collab ε)
    (name : HandlerName) (req : Req) : List (Eff ε) :=
  autoCatch (rawHandler Products Orders name) req

/-- JSON string escaping for the serializer model (quotes and backslashes,
the cases arising in this layer's data). -/
def escapeChar (c : Char) : String :=
  if c = '"' then "\\\"" else if c = '\\' then "\\\\" else String.mk [c]

/-- Escape every character of a string for JSON output. -/
def escapeJson (s : String) : String :=
  String.join (s.data.map escapeChar)

/-- Quote a string as a JSON string literal. -/
def quoteJson (s : String) : String :=
  "\"" ++ escapeJson s ++ "\""

mutual

/-- Model of the serialization performed by the JSON response path
(`res.json`, i.e. `JSON.stringify`): `NaN` serializes as `null`, object
entries whose value is `undefined` are omitted, array elements that are
`undefined` render as `null`; a top-level `undefined` yields an empty
body. -/
def stringify : JsVal → String
  | .undefined => ""
  | .null => "null"
  | .bool true => "true"
  | .bool false => "false"
  | .num (.int n) => toString n
  | .num .nan => "null"
  | .str s => quoteJson s
  | .arr l => "[" ++ String.intercalate "," (elemStrings l) ++ "]"
  | .obj fs => "\x7b" ++ String.intercalate "," (fieldStrings fs) ++ "\x7d"

/-- Serialized forms of the elements of a JSON array. -/
def elemStrings : List JsVal → List String
  | [] => []
  | .undefined :: rest => "null" :: elemStrings rest
  | v :: rest => stringify v :: elemStrings rest

/-- Serialized `key:value` entries of a JSON object, omitting entries whose
value is `undefined`. -/
def fieldStrings : List (String × JsVal) → List String
  | [] => []
  | (_, .undefined) :: rest => fieldStrings rest
  | (k, v) :: rest => (quoteJson k ++ ":" ++ stringify v) :: fieldStrings rest

end

/-- Response body of a trace: the serialization of the first value handed to
the JSON response path, or `none` when no JSON response was emitted. -/
def responseBody {ε : Type} : List (Eff ε) → Option String
  | [] => none
  | .resJson v :: _ => some (stringify v)
  | _ :: rest => responseBody rest

/-- Collaborator stub whose every operation resolves to `null` (used to
instantiate universally quantified theorems at concrete inputs). -/
def nullCollab : Collab Unit :=
  ⟨fun _ => .ok .null, fun _ => .ok .null, fun _ => .ok .null,
   fun _ _ => .ok .null, fun _ => .ok .null⟩

/-- Collaborator stub whose every operation resolves to the object
`{id:'42'}` (a truthy value). -/
def objCollab : Collab Unit :=
  ⟨fun _ => .ok (.obj [("id", .str "42")]), fun _ => .ok (.obj [("id", .str "42")]),
   fun _ => .ok (.obj [("id", .str "42")]), fun _ _ => .ok (.obj [("id", .str "42")]),
   fun _ => .ok (.obj [("id", .str "42")])⟩

/-- Collaborator stub whose every operation rejects with reason `7`. -/
def rejectCollab : Collab Nat :=
  ⟨fun _ => .error 7, fun _ => .error 7, fun _ => .error 7,
   fun _ _ => .error 7, fun _ => .error 7⟩

/-- Collaborator stub whose `list` resolves to the array `[{id:'1'}]` and
whose other operations resolve to `null`. -/
def arrCollab : Collab Unit :=
  ⟨fun _ => .ok (.arr [.obj [("id", .str "1")]]), fun _ => .ok .null,
   fun _ => .ok .null, fun _ _ => .ok .null, fun _ => .ok .null⟩

theorem awaitStep_head {ε : Type} (c : Eff ε) (r : Except ε JsVal)
    (k : JsVal → List (Eff ε)) : (awaitStep c r k).trace.head? = some c := by
  cases r <;> rfl

theorem awaitStep_ok {ε : Type} (c : Eff ε) (v : JsVal)
    (k : JsVal → List (Eff ε)) : awaitStep c (.ok v) k = ⟨c :: k v, none⟩ := rfl

theorem awaitStep_error {ε : Type} (c : Eff ε) (e : ε)
    (k : JsVal → List (Eff ε)) : awaitStep c (.error e) k = ⟨[c], some e⟩ := rfl

theorem autoCatchRun_resolved {ε : Type} (r : RawResult ε)
    (h : r.rejected = none) : autoCatchRun r = r.trace := by
  simp [autoCatchRun, h]

theorem filter_pair_second {α : Type} (p : α → Bool) (x y : α)
    (hx : p x = false) (hy : p y = true) : List.filter p [x, y] = [y] := by
  simp [List.filter_cons, hx, hy]

theorem filter_pair_none {α : Type} (p : α → Bool) (x y : α)
    (hx : p x = false) (hy : p y = false) : List.filter p [x, y] = [] := by
  simp [List.filter_cons, hx, hy]

theorem autoCatch_awaitStep_rejected {ε : Type} (c : Eff ε)
    (r : Except ε JsVal) (k : JsVal → List (Eff ε)) (e : ε)
    (hc1 : c.isNextErr = false) (hc2 : c.isResJson = false)
    (h : (awaitStep c r k).rejected = some e) :
    (autoCatchRun (awaitStep c r k)).filter Eff.isNextErr = [.nextErr e] ∧
    (autoCatchRun (awaitStep c r k)).filter Eff.isResJson = [] := by
  cases r with
  | error e2 =>
      have h2 : e2 = e := by simpa [awaitStep] using h
      subst h2
      exact ⟨filter_pair_second _ c _ hc1 rfl, filter_pair_none _ c _ hc2 rfl⟩
  | ok v => simp [awaitStep] at h

/-- C1: for every list-handler request whose query carries integer-text
strings `o` and `l` as offset and limit, both list handlers invoke the
collaborator's `list` operation with offset `Number(o)` and limit
`Number(l)`; and end-to-end, `GET /products?tag=shoes&limit=10` invokes
`list({offset:0, limit:10, tag:'shoes'})` and the response body equals the
collaborator's returned array serialized as JSON. -/
theorem list_handlers_numeric_query {ε : Type} (Products Orders : Collab ε)
    (req : Req) (o l : String)
    (ho : req.query.offset = some o) (hl : req.query.limit = some l)
    (_hno : isIntText o = true) (_hnl : isIntText l = true) :
    (jsGet (listProductsOptions req.query) "offset" = .num (jsNumber o) ∧
     jsGet (listProductsOptions req.query) "limit" = .num (jsNumber l) ∧
     (listProducts Products req).trace.head? =
       some (.callList (listProductsOptions req.query)) ∧
     jsGet (listOrdersOptions req.query) "offset" = .num (jsNumber o) ∧
     jsGet (listOrdersOptions req.query) "limit" = .num (jsNumber l) ∧
     (listOrders Orders req).trace.head? =
       some (.callList (listOrdersOptions req.query))) ∧
    (∀ a, Products.list (JsVal.obj [("offset", .num (.int 0)),
          ("limit", .num (.int 10)), ("tag", .str "shoes")]) = .ok (.arr a) →
      moduleExports Products Orders .listProducts
          ⟨⟨none, some "10", some "shoes", none, none⟩, ⟨"0"⟩, .undefined⟩ =
        [.callList (JsVal.obj [("offset", .num (.int 0)),
            ("limit", .num (.int 10)), ("tag", .str "shoes")]),
         .resJson (.arr a)] ∧
      responseBody (moduleExports Products Orders .listProducts
          ⟨⟨none, some "10", some "shoes", none, none⟩, ⟨"0"⟩, .undefined⟩) =
        some (stringify (.arr a))) := by
  constructor
  · refine ⟨?_, ?_, awaitStep_head _ _ _, ?_, ?_, awaitStep_head _ _ _⟩ <;>
      simp [listProductsOptions, listOrdersOptions, ho, hl,
        destructureDefault, numberOf, jsGet]
  · intro a ha
    have hopts : listProductsOptions ⟨none, some "10", some "shoes", none, none⟩ =
        JsVal.obj [("offset", .num (.int 0)), ("limit", .num (.int 10)),
          ("tag", .str "shoes")] := rfl
    simp [moduleExports, autoCatch, rawHandler, listProducts, hopts, ha,
      awaitStep, autoCatchRun, responseBody]

theorem list_handlers_numeric_query_witness :
    jsGet (listProductsOptions ⟨some "3", some "10", none, none, none⟩)
      "offset" = .num (jsNumber "3") :=
  ((list_handlers_numeric_query nullCollab nullCollab
      ⟨⟨some "3", some "10", none, none, none⟩, ⟨"0"⟩, .undefined⟩
      "3" "10" rfl rfl rfl rfl).1).1

/-- C2: for every list-handler request with the offset query parameter
omitted, the collaborator's `list` operation is invoked with offset `0`;
with the limit parameter omitted, with limit `25`. -/
theorem list_handlers_defaults {ε : Type} (Products Orders : Collab ε)
    (req : Req) :
    (req.query.offset = none →
      jsGet (listProductsOptions req.query) "offset" = .num (.int 0) ∧
      jsGet (listOrdersOptions req.query) "offset" = .num (.int 0)) ∧
    (req.query.limit = none →
      jsGet (listProductsOptions req.query) "limit" = .num (.int 25) ∧
      jsGet (listOrdersOptions req.query) "limit" = .num (.int 25)) ∧
    (listProducts Products req).trace.head? =
      some (.callList (listProductsOptions req.query)) ∧
    (listOrders Orders req).trace.head? =
      some (.callList (listOrdersOptions req.query)) := by
  refine ⟨fun h => ?_, fun h => ?_, awaitStep_head _ _ _, awaitStep_head _ _ _⟩ <;>
    simp [listProductsOptions, listOrdersOptions, h, destructureDefault,
      numberOf, jsGet]

theorem list_handlers_defaults_witness :
    jsGet (listProductsOptions ⟨none, none, none, none, none⟩) "offset" =
      .num (.int 0) ∧
    jsGet (listOrdersOptions ⟨none, none, none, none, none⟩) "offset" =
      .num (.int 0) :=
  (list_handlers_defaults nullCollab nullCollab
      ⟨⟨none, none, none, none, none⟩, ⟨"0"⟩, .undefined⟩).1 rfl

/-- C3: for every id on which the collaborator's `get` resolves to a falsy
value, the get-by-id handlers call the `next` continuation with no argument
and never invoke the JSON response path. -/
theorem get_handlers_falsy_defer {ε : Type} (Products Orders : Collab ε)
    (req : Req) (v w : JsVal)
    (hp : Products.get req.params.id = .ok v) (hv : v.truthy = false)
    (hq : Orders.get req.params.id = .ok w) (hw : w.truthy = false) :
    moduleExports Products Orders .getProduct req =
      [.callGet req.params.id, .next] ∧
    (moduleExports Products Orders .getProduct req).filter Eff.isResJson =
      [] ∧
    moduleExports Products Orders .getOrder req =
      [.callGet req.params.id, .next] ∧
    (moduleExports Products Orders .getOrder req).filter Eff.isResJson =
      [] := by
  have h1 : moduleExports Products Orders .getProduct req =
      [.callGet req.params.id, .next] := by
    simp [moduleExports, autoCatch, rawHandler, getProduct, hp, awaitStep,
      autoCatchRun, hv]
  have h2 : moduleExports Products Orders .getOrder req =
      [.callGet req.params.id, .next] := by
    simp [moduleExports, autoCatch, rawHandler, getOrder, hq, awaitStep,
      autoCatchRun, hw]
  refine ⟨h1, ?_, h2, ?_⟩
  · rw [h1]; exact filter_pair_none _ _ _ rfl rfl
  · rw [h2]; exact filter_pair_none _ _ _ rfl rfl

theorem get_handlers_falsy_defer_witness :
    moduleExports nullCollab nullCollab .getProduct
      ⟨⟨none, none, none, none, none⟩, ⟨"42"⟩, .undefined⟩ =
      [.callGet "42", .next] ∧
    (moduleExports nullCollab nullCollab .getProduct
      ⟨⟨none, none, none, none, none⟩, ⟨"42"⟩, .undefined⟩).filter
        Eff.isResJson = [] :=
  have h := get_handlers_falsy_defer nullCollab nullCollab
    ⟨⟨none, none, none, none, none⟩, ⟨"42"⟩, .undefined⟩ .null .null
    rfl rfl rfl rfl
  ⟨h.1, h.2.1⟩

/-- C4: every exported handler is wrapped by the error-forwarding adapter;
when the underlying handler resolves, the wrapped trace is the raw trace
unchanged, and when it rejects with reason `e`, the deferred-error
continuation is invoked exactly once with `e` and the JSON response path is
never invoked. -/
theorem autoCatch_error_forwarding {ε : Type} (Products Orders : Collab ε)
    (name : HandlerName) (req : Req) :
    ((rawHandler Products Orders name req).rejected = none →
      moduleExports Products Orders name req =
        (rawHandler Products Orders name req).trace) ∧
    (∀ e, (rawHandler Products Orders name req).rejected = some e →
      (moduleExports Products Orders name req).filter Eff.isNextErr =
        [.nextErr e] ∧
      (moduleExports Products Orders name req).filter Eff.isResJson = []) := by
  constructor
  · intro h
    exact autoCatchRun_resolved _ h
  · intro e he
    cases name with
    | handleRoot => simp [rawHandler, handleRoot] at he
    | listProducts =>
        exact autoCatch_awaitStep_rejected _ _ _ e rfl rfl he
    | getProduct =>
        exact autoCatch_awaitStep_rejected _ _ _ e rfl rfl he
    | createProduct =>
        exact autoCatch_awaitStep_rejected _ _ _ e rfl rfl he
    | editProduct =>
        exact autoCatch_awaitStep_rejected _ _ _ e rfl rfl he
    | deleteProduct =>
        exact autoCatch_awaitStep_rejected _ _ _ e rfl rfl he
    | createOrder =>
        exact autoCatch_awaitStep_rejected _ _ _ e rfl rfl he
    | listOrders =>
        exact autoCatch_awaitStep_rejected _ _ _ e rfl rfl he
    | editOrder =>
        exact autoCatch_awaitStep_rejected _ _ _ e rfl rfl he
    | deleteOrder =>
        exact autoCatch_awaitStep_rejected _ _ _ e rfl rfl he
    | getOrder =>
        exact autoCatch_awaitStep_rejected _ _ _ e rfl rfl he

theorem autoCatch_error_forwarding_witness :
    (moduleExports rejectCollab rejectCollab .listProducts
        ⟨⟨none, none, none, none, none⟩, ⟨"0"⟩, .undefined⟩).filter
      Eff.isNextErr = [.nextErr 7] ∧
    (moduleExports rejectCollab rejectCollab .listProducts
        ⟨⟨none, none, none, none, none⟩, ⟨"0"⟩, .undefined⟩).filter
      Eff.isResJson = [] :=
  (autoCatch_error_forwarding rejectCollab rejectCollab .listProducts
      ⟨⟨none, none, none, none, none⟩, ⟨"0"⟩, .undefined⟩).2 7 rfl

/-- C5: for every id on which the collaborator's `get` resolves to a truthy
value `v`, the get-by-id handlers respond with `v` verbatim, serialized as
JSON, and never call the `next` continuation. -/
theorem get_handlers_truthy_respond {ε : Type} (Products Orders : Collab ε)
    (req : Req) (v w : JsVal)
    (hp : Products.get req.params.id = .ok v) (hv : v.truthy = true)
    (hq : Orders.get req.params.id = .ok w) (hw : w.truthy = true) :
    moduleExports Products Orders .getProduct req =
      [.callGet req.params.id, .resJson v] ∧
    responseBody (moduleExports Products Orders .getProduct req) =
      some (stringify v) ∧
    (moduleExports Products Orders .getProduct req).filter Eff.isNext = [] ∧
    moduleExports Products Orders .getOrder req =
      [.callGet req.params.id, .resJson w] ∧
    responseBody (moduleExports Products Orders .getOrder req) =
      some (stringify w) ∧
    (moduleExports Products Orders .getOrder req).filter Eff.isNext = [] := by
  have h1 : moduleExports Products Orders .getProduct req =
      [.callGet req.params.id, .resJson v] := by
    simp [moduleExports, autoCatch, rawHandler, getProduct, hp, awaitStep,
      autoCatchRun, hv]
  have h2 : moduleExports Products Orders .getOrder req =
      [.callGet req.params.id, .resJson w] := by
    simp [moduleExports, autoCatch, rawHandler, getOrder, hq, awaitStep,
      autoCatchRun, hw]
  refine ⟨h1, ?_, ?_, h2, ?_, ?_⟩
  · rw [h1]; rfl
  · rw [h1]; exact filter_pair_none _ _ _ rfl rfl
  · rw [h2]; rfl
  · rw [h2]; exact filter_pair_none _ _ _ rfl rfl

theorem get_handlers_truthy_respond_witness :
    moduleExports objCollab objCollab .getProduct
      ⟨⟨none, none, none, none, none⟩, ⟨"42"⟩, .undefined⟩ =
      [.callGet "42", .resJson (.obj [("id", .str "42")])] ∧
    responseBody (moduleExports objCollab objCollab .getProduct
      ⟨⟨none, none, none, none, none⟩, ⟨"42"⟩, .undefined⟩) =
      some (stringify (.obj [("id", .str "42")])) :=
  have h := get_handlers_truthy_respond objCollab objCollab
    ⟨⟨none, none, none, none, none⟩, ⟨"42"⟩, .undefined⟩
    (.obj [("id", .str "42")]) (.obj [("id", .str "42")]) rfl rfl rfl rfl
  ⟨h.1, h.2.1⟩

/-- C6: for every list-handler request whose offset or limit query
parameter is a string on which `Number` yields `NaN`, the `NaN` value is
passed through uninspected in the options given to the collaborator's
`list` operation, and when the collaborator resolves, the handler completes
normally (it emits the JSON response and rejects nothing of its own). -/
theorem list_handlers_nan_passthrough {ε : Type} (Products Orders : Collab ε)
    (req : Req) (s : String) (hs : jsNumber s = .nan) :
    (req.query.offset = some s →
      jsGet (listProductsOptions req.query) "offset" = .num .nan ∧
      jsGet (listOrdersOptions req.query) "offset" = .num .nan) ∧
    (req.query.limit = some s →
      jsGet (listProductsOptions req.query) "limit" = .num .nan ∧
      jsGet (listOrdersOptions req.query) "limit" = .num .nan) ∧
    (∀ v, Products.list (listProductsOptions req.query) = .ok v →
      moduleExports Products Orders .listProducts req =
        [.callList (listProductsOptions req.query), .resJson v] ∧
      (rawHandler Products Orders .listProducts req).rejected = none) ∧
    (∀ v, Orders.list (listOrdersOptions req.query) = .ok v →
      moduleExports Products Orders .listOrders req =
        [.callList (listOrdersOptions req.query), .resJson v] ∧
      (rawHandler Products Orders .listOrders req).rejected = none) := by
  refine ⟨fun h => ?_, fun h => ?_, fun v hv => ?_, fun v hv => ?_⟩
  · constructor <;>
      simp [listProductsOptions, listOrdersOptions, h, destructureDefault,
        numberOf, hs, jsGet]
  · constructor <;>
      simp [listProductsOptions, listOrdersOptions, h, destructureDefault,
        numberOf, hs, jsGet]
  · constructor <;>
      simp [moduleExports, autoCatch, rawHandler, listProducts, hv,
        awaitStep, autoCatchRun]
  · constructor <;>
      simp [moduleExports, autoCatch, rawHandler, listOrders, hv,
        awaitStep, autoCatchRun]

theorem list_handlers_nan_passthrough_witness :
    jsGet (listProductsOptions ⟨some "abc", none, none, none, none⟩)
      "offset" = .num .nan ∧
    jsGet (listOrdersOptions ⟨some "abc", none, none, none, none⟩)
      "offset" = .num .nan :=
  (list_handlers_nan_passthrough nullCollab nullCollab
      ⟨⟨some "abc", none, none, none, none⟩, ⟨"0"⟩, .undefined⟩
      "abc" rfl).1 rfl

/-- C7: the create handlers pass the request body unvalidated and
unmodified to the collaborator's `create` operation, and when it resolves
the response body is the created object serialized as JSON. -/
theorem create_handlers_pass_body {ε : Type} (Products Orders : Collab ε)
    (req : Req) :
    (createProduct Products req).trace.head? =
      some (.callCreate req.body) ∧
    (createOrder Orders req).trace.head? = some (.callCreate req.body) ∧
    (∀ v, Products.create req.body = .ok v →
      moduleExports Products Orders .createProduct req =
        [.callCreate req.body, .resJson v] ∧
      responseBody (moduleExports Products Orders .createProduct req) =
        some (stringify v)) ∧
    (∀ v, Orders.create req.body = .ok v →
      moduleExports Products Orders .createOrder req =
        [.callCreate req.body, .resJson v] ∧
      responseBody (moduleExports Products Orders .createOrder req) =
        some (stringify v)) := by
  refine ⟨awaitStep_head _ _ _, awaitStep_head _ _ _,
    fun v hv => ?_, fun v hv => ?_⟩
  · have h : moduleExports Products Orders .createProduct req =
        [.callCreate req.body, .resJson v] := by
      simp [moduleExports, autoCatch, rawHandler, createProduct, hv,
        awaitStep, autoCatchRun]
    exact ⟨h, by rw [h]; rfl⟩
  · have h : moduleExports Products Orders .createOrder req =
        [.callCreate req.body, .resJson v] := by
      simp [moduleExports, autoCatch, rawHandler, createOrder, hv,
        awaitStep, autoCatchRun]
    exact ⟨h, by rw [h]; rfl⟩

theorem create_handlers_pass_body_witness :
    moduleExports objCollab objCollab .createOrder
      ⟨⟨none, none, none, none, none⟩, ⟨"0"⟩,
        .obj [("productId", .str "42"), ("qty", .num (.int 3))]⟩ =
      [.callCreate (.obj [("productId", .str "42"), ("qty", .num (.int 3))]),
       .resJson (.obj [("id", .str "42")])] ∧
    responseBody (moduleExports objCollab objCollab .createOrder
      ⟨⟨none, none, none, none, none⟩, ⟨"0"⟩,
        .obj [("productId", .str "42"), ("qty", .num (.int 3))]⟩) =
      some (stringify (.obj [("id", .str "42")])) :=
  (create_handlers_pass_body objCollab objCollab
      ⟨⟨none, none, none, none, none⟩, ⟨"0"⟩,
        .obj [("productId", .str "42"), ("qty", .num (.int 3))]⟩).2.2.2
    (.obj [("id", .str "42")]) rfl

/-- C8: the filter fields are always present as keys of the options object
passed to the collaborator's `list` operation, with value `undefined` when
absent from the query: `listProducts` always passes a `tag` key, and
`listOrders` always passes `productId` and `status` keys. -/
theorem list_options_filter_keys {ε : Type} (Products Orders : Collab ε)
    (req : Req) :
    hasKey (listProductsOptions req.query) "tag" = true ∧
    hasKey (listOrdersOptions req.query) "productId" = true ∧
    hasKey (listOrdersOptions req.query) "status" = true ∧
    (req.query.tag = none →
      jsGet (listProductsOptions req.query) "tag" = .undefined) ∧
    (req.query.productId = none →
      jsGet (listOrdersOptions req.query) "productId" = .undefined) ∧
    (req.query.status = none →
      jsGet (listOrdersOptions req.query) "status" = .undefined) ∧
    (listProducts Products req).trace.head? =
      some (.callList (listProductsOptions req.query)) ∧
    (listOrders Orders req).trace.head? =
      some (.callList (listOrdersOptions req.query)) := by
  refine ⟨rfl, rfl, rfl, fun h => ?_, fun h => ?_, fun h => ?_,
    awaitStep_head _ _ _, awaitStep_head _ _ _⟩ <;>
    simp [listProductsOptions, listOrdersOptions, h, optUndef, jsGet]

theorem list_options_filter_keys_witness :
    jsGet (listProductsOptions ⟨none, none, none, none, none⟩) "tag" =
      .undefined ∧
    hasKey (listProductsOptions ⟨none, none, none, none, none⟩) "tag" =
      true :=
  have h := list_options_filter_keys nullCollab nullCollab
    ⟨⟨none, none, none, none, none⟩, ⟨"0"⟩, .undefined⟩
  ⟨h.2.2.2.1 rfl, h.1⟩

/-- C9: the edit and delete handlers respond with whatever value the
collaborator's `edit` or `destroy` operation resolves to, serialized as
JSON, even when that value is falsy, and never call the `next` continuation
on a resolved call. -/
theorem edit_delete_respond_resolved {ε : Type} (Products Orders : Collab ε)
    (req : Req) (a b c d : JsVal)
    (h1 : Products.edit req.params.id req.body = .ok a)
    (h2 : Products.destroy req.params.id = .ok b)
    (h3 : Orders.edit req.params.id req.body = .ok c)
    (h4 : Orders.destroy req.params.id = .ok d) :
    moduleExports Products Orders .editProduct req =
      [.callEdit req.params.id req.body, .resJson a] ∧
    moduleExports Products Orders .deleteProduct req =
      [.callDestroy req.params.id, .resJson b] ∧
    moduleExports Products Orders .editOrder req =
      [.callEdit req.params.id req.body, .resJson c] ∧
    moduleExports Products Orders .deleteOrder req =
      [.callDestroy req.params.id, .resJson d] ∧
    responseBody (moduleExports Products Orders .editProduct req) =
      some (stringify a) ∧
    responseBody (moduleExports Products Orders .deleteProduct req) =
      some (stringify b) ∧
    (moduleExports Products Orders .editProduct req).filter Eff.isNext =
      [] ∧
    (moduleExports Products Orders .deleteProduct req).filter Eff.isNext =
      [] ∧
    (moduleExports Products Orders .editOrder req).filter Eff.isNext = [] ∧
    (moduleExports Products Orders .deleteOrder req).filter Eff.isNext =
      [] := by
  have g1 : moduleExports Products Orders .editProduct req =
      [.callEdit req.params.id req.body, .resJson a] := by
    simp [moduleExports, autoCatch, rawHandler, editProduct, h1, awaitStep,
      autoCatchRun]
  have g2 : moduleExports Products Orders .deleteProduct req =
      [.callDestroy req.params.id, .resJson b] := by
    simp [moduleExports, autoCatch, rawHandler, deleteProduct, h2,
      awaitStep, autoCatchRun]
  have g3 : moduleExports Products Orders .editOrder req =
      [.callEdit req.params.id req.body, .resJson c] := by
    simp [moduleExports, autoCatch, rawHandler, editOrder, h3, awaitStep,
      autoCatchRun]
  have g4 : moduleExports Products Orders .deleteOrder req =
      [.callDestroy req.params.id, .resJson d] := by
    simp [moduleExports, autoCatch, rawHandler, deleteOrder, h4, awaitStep,
      autoCatchRun]
  refine ⟨g1, g2, g3, g4, by rw [g1]; rfl, by rw [g2]; rfl, ?_, ?_, ?_, ?_⟩
  · rw [g1]; exact filter_pair_none _ _ _ rfl rfl
  · rw [g2]; exact filter_pair_none _ _ _ rfl rfl
  · rw [g3]; exact filter_pair_none _ _ _ rfl rfl
  · rw [g4]; exact filter_pair_none _ _ _ rfl rfl

theorem edit_delete_respond_resolved_witness :
    moduleExports nullCollab nullCollab .editProduct
      ⟨⟨none, none, none, none, none⟩, ⟨"7"⟩, .undefined⟩ =
      [.callEdit "7" .undefined, .resJson .null] ∧
    moduleExports nullCollab nullCollab .deleteProduct
      ⟨⟨none, none, none, none, none⟩, ⟨"7"⟩, .undefined⟩ =
      [.callDestroy "7", .resJson .null] :=
  have h := edit_delete_respond_resolved nullCollab nullCollab
    ⟨⟨none, none, none, none, none⟩, ⟨"7"⟩, .undefined⟩
    .null .null .null .null rfl rfl rfl rfl
  ⟨h.1, h.2.1⟩

/-- C10: for every list-handler request whose offset or limit query
parameter is present but equal to the empty string, the destructuring
default is not applied (it applies only to `undefined`), and the
collaborator is invoked with `Number('')`, which is `0` — in particular a
limit equal to the empty string yields limit `0`, not the default `25`. -/
theorem list_handlers_empty_string {ε : Type} (Products Orders : Collab ε)
    (req : Req) :
    (req.query.offset = some "" →
      destructureDefault req.query.offset 0 = .s "" ∧
      jsGet (listProductsOptions req.query) "offset" = .num (.int 0) ∧
      jsGet (listOrdersOptions req.query) "offset" = .num (.int 0)) ∧
    (req.query.limit = some "" →
      destructureDefault req.query.limit 25 = .s "" ∧
      jsGet (listProductsOptions req.query) "limit" = .num (.int 0) ∧
      jsGet (listOrdersOptions req.query) "limit" = .num (.int 0) ∧
      jsGet (listProductsOptions req.query) "limit" ≠ .num (.int 25)) ∧
    (listProducts Products req).trace.head? =
      some (.callList (listProductsOptions req.query)) ∧
    (listOrders Orders req).trace.head? =
      some (.callList (listOrdersOptions req.query)) := by
  refine ⟨fun h => ?_, fun h => ?_, awaitStep_head _ _ _,
    awaitStep_head _ _ _⟩
  · refine ⟨by rw [h]; rfl, ?_, ?_⟩ <;>
      simp [listProductsOptions, listOrdersOptions, h, destructureDefault,
        numberOf, jsNumber, jsGet]
  · have hj : jsGet (listProductsOptions req.query) "limit" =
        .num (.int 0) := by
      simp [listProductsOptions, h, destructureDefault, numberOf, jsNumber,
        jsGet]
    refine ⟨by rw [h]; rfl, hj, ?_, ?_⟩
    · simp [listOrdersOptions, h, destructureDefault, numberOf, jsNumber,
        jsGet]
    · rw [hj]
      intro hc
      simp at hc

theorem list_handlers_empty_string_witness :
    jsGet (listProductsOptions ⟨none, some "", none, none, none⟩) "limit" =
      .num (.int 0) ∧
    jsGet (listProductsOptions ⟨none, some "", none, none, none⟩) "limit" ≠
      .num (.int 25) :=
  have h := (list_handlers_empty_string nullCollab nullCollab
    ⟨⟨none, some "", none, none, none⟩, ⟨"0"⟩, .undefined⟩).2.1 rfl
  ⟨h.2.1, h.2.2.2⟩
